import Mathlib

/-!
Verification development for the ByteDent RAG chatbot engine
(`app/chatbot.py`).  The definitions below are a shallow embedding of the
response cache, token-aware chunker, answerability gate, JSON-response
parsing and the `chat` orchestrator.  External collaborators (tiktoken,
the embedding model, llama.cpp, `json.loads`, `hashlib.md5`) are modelled
as explicit parameters or, where noted, from the spec.
-/

/-- Python `needle in hay` substring test over character lists. -/
def subOccurs (needle : List Char) : List Char → Bool
  | [] => needle.isEmpty
  | c :: t => needle.isPrefixOf (c :: t) || subOccurs needle t

/-- Helper for `str.find`: index of the first occurrence of `needle`. -/
def findSubAux (needle : List Char) : List Char → Nat → Option Nat
  | [], i => if needle.isEmpty then some i else none
  | c :: t, i => if needle.isPrefixOf (c :: t) then some i else findSubAux needle t (i + 1)

/-- Python `s.find(pat)` (returning `none` for `-1`). -/
def findSub (s pat : String) : Option Nat := findSubAux pat.data s.data 0

/-- Python `s.find(pat, start)`. -/
def findSubFrom (s pat : String) (start : Nat) : Option Nat :=
  (findSubAux pat.data (s.data.drop start) 0).map (· + start)

/-- Python `s.rfind(c)` for a single character (returning `none` for `-1`). -/
def lastIdxOf (c : Char) : List Char → Option Nat
  | [] => none
  | x :: t =>
    match lastIdxOf c t with
    | some i => some (i + 1)
    | none => if x = c then some (0 : Nat) else none

/-- Python slice `s[a:b]` for `0 ≤ a`, `0 ≤ b` (clamped at the ends). -/
def strSlice (s : String) (a b : Nat) : String := String.mk ((s.data.drop a).take (b - a))

/-- The ASCII whitespace characters stripped by Python `str.strip()`. -/
def pyIsSpace (c : Char) : Bool :=
  c == ' ' || c == '\t' || c == '\n' || c == '\r' || c == '\x0b' || c == '\x0c'

/-- Python `str.strip()` on a character list. -/
def stripChars (l : List Char) : List Char :=
  ((l.dropWhile pyIsSpace).reverse.dropWhile pyIsSpace).reverse

/-- Python `str.strip()`. -/
def pyStrip (s : String) : String := String.mk (stripChars s.data)

/-- Python `str.lower()` (ASCII case mapping). -/
def strLower (s : String) : String := String.mk (s.data.map Char.toLower)

/-- Python `needle in hay` on strings. -/
def strContains (hay needle : String) : Bool := subOccurs needle.data hay.data

/-- Zero-padded rendering of the three fractional digits used by `fmt3`. -/
def pad3 (n : Nat) : String :=
  if n < 10 then ("00") ++ toString n else if n < 100 then ("0") ++ toString n else toString n

/-- Modelled from the spec: CPython's float formatting `f"{x:.3f}"` used in
the low-similarity gate reason.  The exact digit-level rounding of binary
floats is not reproduced; the model rounds the rational score to three
decimal places, which is all the spec's "reason includes the numeric
score" depends on. -/
def fmt3 (q : ℚ) : String :=
  let m : ℤ := round (q * 1000)
  let sign := if m < 0 then ("-") else ("")
  let n := m.natAbs
  sign ++ toString (n / 1000) ++ "." ++ pad3 (n % 1000)

/-- `Chunk` dataclass from `app/chatbot.py`. -/
structure Chunk where
  text : String
  chunk_id : Nat
  source : String
  token_count : Nat
deriving DecidableEq

/-- `RetrievalResult` dataclass from `app/chatbot.py`. -/
structure RetrievalResult where
  chunks : List Chunk
  scores : List ℚ
  max_score : ℚ
  passed_threshold : Bool
  retrieval_time_ms : ℤ
deriving DecidableEq

/-- `GateDecision` dataclass from `app/chatbot.py`. -/
structure GateDecision where
  should_handoff : Bool
  reason : String
deriving DecidableEq

/-- `ChatResult` dataclass from `app/chatbot.py`. -/
structure ChatResult where
  type : String
  message : String
  citations : List String
  handoff_reason : Option String
  retrieval_result : RetrievalResult
  gate_decision : GateDecision
  generation_time_ms : ℤ
  total_time_ms : ℤ
  request_id : String
deriving DecidableEq

/-- The fields of `app/config.py`'s `Settings` consumed by the chatbot. -/
structure Settings where
  chunk_size_tokens : Nat
  chunk_overlap_tokens : Nat
  retrieval_top_k : Nat
  min_similarity_threshold : ℚ
  handoff_similarity_threshold : ℚ
  uncertainty_keywords : List String
  handoff_required_topics : List String

/-- Default values of `app/config.py` (floats as exact rationals). -/
def defaultSettings : Settings where
  chunk_size_tokens := 400
  chunk_overlap_tokens := 80
  retrieval_top_k := 5
  min_similarity_threshold := mkRat 1 4
  handoff_similarity_threshold := mkRat 3 10
  uncertainty_keywords :=
    ["i'm not sure", "i don't know", "unclear", "not enough information",
     "cannot determine", "insufficient context", "i apologize",
     "consult your dentist", "seek professional advice", "cannot diagnose"]
  handoff_required_topics :=
    ["pricing", "price", "cost", "quote", "subscription",
     "my scan", "my image", "my diagnosis", "my treatment",
     "specific patient", "patient name", "medical advice",
     "prescription", "medication", "legal", "malpractice",
     "insurance claim", "billing", "refund"]

/-- One iteration step of `TokenAwareChunker.chunk_text`'s `while` loop,
with explicit fuel: `none` means the fuel ran out while the loop was
still running (source loop does not terminate within that many steps).
Tokens are abstract (`Nat`), `decode` stands for
`self.encoding.decode`. -/
def chunkLoop (decode : List Nat → String) (chunk_size overlap : Nat) (source : String)
    (tokens : List Nat) : Nat → Nat → Nat → Option (List Chunk)
  | 0, start, _ => if tokens.length ≤ start then some [] else none
  | fuel + 1, start, cid =>
    if start < tokens.length then
      let chunk_tokens := (tokens.drop start).take chunk_size
      let ctext := pyStrip (decode chunk_tokens)
      match chunkLoop decode chunk_size overlap source tokens fuel
          (start + chunk_size - overlap) (if ctext = "" then cid else cid + 1) with
      | none => none
      | some cs =>
        some (if ctext = "" then cs
              else Chunk.mk ctext cid source chunk_tokens.length :: cs)
    else some []

/-- `TokenAwareChunker.chunk_text`, with `encode`/`decode` standing for the
external `tiktoken` encoding.  A fuel of `tokens.length + 1` is sufficient
whenever the loop terminates at all, since every productive step must
advance `start`; `none` models non-termination of the source loop. -/
def chunk_text (encode : String → List Nat) (decode : List Nat → String)
    (chunk_size overlap : Nat) (text : String) (source : String) : Option (List Chunk) :=
  let tokens := encode text
  chunkLoop decode chunk_size overlap source tokens (tokens.length + 1) 0 0

/-- The `i`-th sliding token window `tokens[start:start+chunk_size]` with
`start = i * (chunk_size - overlap)`, as traversed by `chunk_text`. -/
def windowAt (tokens : List Nat) (chunk_size overlap i : Nat) : List Nat :=
  (tokens.drop (i * (chunk_size - overlap))).take chunk_size

/-- The last `n` elements of a list (the suffix compared in the overlap
property). -/
def lastTokens (n : Nat) (l : List Nat) : List Nat := l.drop (l.length - n)

/-- A stored cache entry: key, cached `ChatResult`, insertion timestamp.
The list preserves Python's dict insertion order; keys are unique. -/
abbrev CacheEntry := String × ChatResult × ℤ

/-- Association-list lookup (Python `key in dict` / `dict[key]`). -/
def lookupEntry (k : String) : List CacheEntry → Option (ChatResult × ℤ)
  | [] => none
  | e :: t => if e.1 = k then some e.2 else lookupEntry k t

/-- Python `del dict[key]` (removes the unique binding of `k`). -/
def eraseKey (k : String) : List CacheEntry → List CacheEntry
  | [] => []
  | e :: t => if e.1 = k then t else e :: eraseKey k t

/-- Python `dict[key] = value`: replace in place if present, else append. -/
def assocSet (k : String) (v : ChatResult × ℤ) : List CacheEntry → List CacheEntry
  | [] => [(k, v)]
  | e :: t => if e.1 = k then (k, v) :: t else e :: assocSet k v t

/-- Python `min(cache, key=lambda k: cache[k][1])`: the first entry (in
insertion order) with minimal timestamp. -/
def minByTs : List CacheEntry → Option CacheEntry
  | [] => none
  | e :: t => some (t.foldl (fun best x => if x.2.2 < best.2.2 then x else best) e)

/-- `ResponseCache` from `app/chatbot.py`. -/
structure ResponseCache where
  cache : List CacheEntry
  max_size : Nat
  ttl : ℤ
  hits : Nat
  misses : Nat
deriving DecidableEq

/-- `ResponseCache.__init__` with an empty store. -/
def emptyCache (max_size : Nat) (ttl : ℤ) : ResponseCache :=
  ⟨[], max_size, ttl, 0, 0⟩

/-- `ResponseCache._hash_query`: `md5(query.lower().strip())`.  Modelled
from the spec: the external `hashlib.md5` digest is modelled as the
identity on the normalized query (a stable digest, assumed
collision-free on the queries considered). -/
def hashQuery (q : String) : String := pyStrip (strLower q)

/-- `ResponseCache.set` (`now` models the `time.time()` call inside). -/
def ResponseCache.set (c : ResponseCache) (query : String) (result : ChatResult)
    (now : ℤ) : ResponseCache :=
  let cache1 :=
    if c.max_size ≤ c.cache.length then
      match minByTs c.cache with
      | some oldest => eraseKey oldest.1 c.cache
      | none => c.cache
    else c.cache
  { c with cache := assocSet (hashQuery query) (result, now) cache1 }

/-- Folding `ResponseCache.set` over a list of (query, result, time)
triples: the repeated-insertion scenario of the eviction property. -/
def seqSet (c : ResponseCache) (l : List (String × ChatResult × ℤ)) : ResponseCache :=
  l.foldl (fun acc e => acc.set e.1 e.2.1 e.2.2) c

/-- The JSON object shape the chatbot reads out of the model output
(`parsed.get("type")`, `"message"`, `"citations"`, `"handoff_reason"`);
absent keys are `none`. -/
structure ParsedResponse where
  type : Option String
  message : Option String
  citations : Option (List String)
  handoff_reason : Option String
deriving DecidableEq

/-- `ByteDentChatbot._parse_json_response`.  `jsonLoads` stands for the
external `json.loads`, returning `none` where it would raise
`json.JSONDecodeError`; the function returns `none` exactly where the
source raises (`ValueError` on missing object boundaries, or a
`jsonLoads` failure). -/
def parse_json_response (jsonLoads : String → Option ParsedResponse)
    (text : String) : Option ParsedResponse :=
  let text1 :=
    if subOccurs ("```json").data text.data then
      let js := (findSub text ("```json")).getD 0 + 7
      match findSubFrom text ("```") js with
      | some je => pyStrip (strSlice text js je)
      | none => pyStrip (strSlice text js (text.data.length - 1))
    else if subOccurs ("```").data text.data then
      match findSub text ("\x7b"), lastIdxOf '\x7d' text.data with
      | some js, some jr => if js < jr + 1 then strSlice text js (jr + 1) else text
      | _, _ => text
    else text
  match findSub text1 ("\x7b"), lastIdxOf '\x7d' text1.data with
  | some js, some jr => if js < jr + 1 then jsonLoads (strSlice text1 js (jr + 1)) else none
  | _, _ => none

/-- `ByteDentChatbot._check_uncertainty`. -/
def check_uncertainty (st : Settings) (text : String) : Bool :=
  st.uncertainty_keywords.any (fun k => strContains (strLower text) k)

/-- `ByteDentChatbot.retrieve_context`, parameterized by the results the
external FAISS search returns for the query (`retMs` models the measured
retrieval time). -/
def retrieve_context (st : Settings) (results : List (Chunk × ℚ)) (retMs : ℤ) :
    RetrievalResult :=
  match results with
  | [] => ⟨[], [], 0, false, retMs⟩
  | _ :: _ =>
    let filtered := results.filter (fun p => decide (st.min_similarity_threshold ≤ p.2))
    let chunks := filtered.map Prod.fst
    let scores := filtered.map Prod.snd
    let max_score := match scores with
      | [] => (0 : ℚ)
      | s :: rest => rest.foldl (fun acc x => if acc < x then x else acc) s
    ⟨chunks, scores, max_score, decide (0 < chunks.length), retMs⟩

/-- Reason string of gate check 1. -/
def noInfoReason : String := "No relevant information found in knowledge base"

/-- Reason string of gate check 2 (the f-string with the `.3f` score). -/
def lowSimReason (s : ℚ) : String := "Low similarity score (" ++ fmt3 s ++ ")"

/-- Reason string of gate check 3. -/
def topicReason (t : String) : String :=
  "Query requires live support: contains '" ++ t ++ "'"

/-- Reason string of gate check 4. -/
def patientReason : String := "Query appears to be patient-specific"

/-- Reason string of the pass outcome (check 5). -/
def passReason : String := "Query is answerable from knowledge base"

/-- The `patient_patterns` list of `answerability_gate`. -/
def patient_patterns : List String :=
  ["my scan", "my x-ray", "my cbct", "my panoramic",
   "my diagnosis", "my treatment", "my tooth", "my teeth",
   "diagnose me", "analyze my", "look at my",
   "what should i do", "should i get", "do i need"]

/-- `ByteDentChatbot.answerability_gate`: the five ordered checks. -/
def answerability_gate (st : Settings) (query : String) (rr : RetrievalResult) :
    GateDecision :=
  let query_lower := strLower query
  if rr.chunks = [] then ⟨true, noInfoReason⟩
  else if rr.max_score < st.handoff_similarity_threshold then
    ⟨true, lowSimReason rr.max_score⟩
  else
    match st.handoff_required_topics.find? (fun t => strContains query_lower t) with
    | some t => ⟨true, topicReason t⟩
    | none =>
      match patient_patterns.find? (fun p => strContains query_lower p) with
      | some _ => ⟨true, patientReason⟩
      | none => ⟨false, passReason⟩

/-- The per-request behaviour of the external collaborators inside `chat`:
what the vector search returns for the question, the raw model output,
and `json.loads`. -/
structure ChatEnv where
  searchResults : List (Chunk × ℚ)
  rawOutput : String
  jsonLoads : String → Option ParsedResponse

/-- The timing observations of one `chat` call: `now` is `time.time()` at
entry (used for cache timestamps and TTL checks), the `*Ms` fields are the
measured stage durations the source derives from repeated clock reads. -/
structure Clock where
  now : ℤ
  retrievalMs : ℤ
  generationMs : ℤ
  elapsedMs : ℤ

/-- Result of one `chat` call: the returned `ChatResult`, the state of the
global `_response_cache` afterwards, and whether retrieval / generation
were invoked (the call-count instrumentation of the spec). -/
structure ChatOutcome where
  result : ChatResult
  cache : ResponseCache
  invokedRetrieval : Bool
  invokedGeneration : Bool
deriving DecidableEq

/-- Steps 5-6 of `ByteDentChatbot.chat`: JSON parsing outcome handling and
response validation (`parsed.get(...)` duck typing, the uncertainty scan,
the missing-citations check), then step 7 with its answer-only `set`. -/
def chatValidate (st : Settings) (c : ResponseCache) (q rid : String) (clk : Clock)
    (rr : RetrievalResult) (gd : GateDecision) : Option ParsedResponse → ChatOutcome
  | none =>
    ⟨⟨"handoff", "I'm having trouble processing your request. Let me connect you with support.",
      [], some ("Failed to parse model response"), rr, gd, clk.generationMs, clk.elapsedMs, rid⟩,
     c, true, true⟩
  | some parsed =>
    if parsed.type.getD ("handoff") = "answer" ∧
        check_uncertainty st (parsed.message.getD ("")) = true then
      ⟨⟨"handoff", "I'm not completely certain about this answer. Let me connect you with support.",
        [], some ("Model expressed uncertainty"), rr, gd, clk.generationMs, clk.elapsedMs, rid⟩,
       c, true, true⟩
    else if parsed.type.getD ("handoff") = "answer" ∧ parsed.citations.getD [] = [] then
      ⟨⟨"handoff", "I need to verify this information. Let me connect you with support.",
        [], some ("Answer provided without citations"), rr, gd, clk.generationMs, clk.elapsedMs,
        rid⟩, c, true, true⟩
    else if parsed.type.getD ("handoff") = "answer" then
      ⟨⟨parsed.type.getD ("handoff"), parsed.message.getD (""), parsed.citations.getD [],
        parsed.handoff_reason, rr, gd, clk.generationMs, clk.elapsedMs, rid⟩,
       c.set q ⟨parsed.type.getD ("handoff"), parsed.message.getD (""), parsed.citations.getD [],
         parsed.handoff_reason, rr, gd, clk.generationMs, clk.elapsedMs, rid⟩ clk.now,
       true, true⟩
    else
      ⟨⟨parsed.type.getD ("handoff"), parsed.message.getD (""), parsed.citations.getD [],
        parsed.handoff_reason, rr, gd, clk.generationMs, clk.elapsedMs, rid⟩, c, true, true⟩

/-- Steps 2-3 of `ByteDentChatbot.chat`: the answerability gate and its
immediate handoff, else generation/parsing/validation. -/
def chatGate (st : Settings) (env : ChatEnv) (c : ResponseCache) (q rid : String) (clk : Clock)
    (rr : RetrievalResult) : ChatOutcome :=
  if (answerability_gate st q rr).should_handoff then
    ⟨⟨"handoff",
      "I need to connect you with a support specialist who can better assist you with this request.",
      [], some (answerability_gate st q rr).reason, rr, answerability_gate st q rr, 0,
      clk.elapsedMs, rid⟩, c, true, false⟩
  else
    chatValidate st c q rid clk rr (answerability_gate st q rr)
      (parse_json_response env.jsonLoads env.rawOutput)

/-- Steps 1-7 of `ByteDentChatbot.chat` after the cache lookup. -/
def chatPipeline (st : Settings) (env : ChatEnv) (c : ResponseCache)
    (q rid : String) (clk : Clock) : ChatOutcome :=
  chatGate st env c q rid clk (retrieve_context st env.searchResults clk.retrievalMs)

/-- The cache-lookup head of `ByteDentChatbot.chat`: hit counters, lazy
expiry, and the hit fast path.  On a hit the source mutates the stored
`ChatResult` object in place (`cached.request_id = ...`), which the
embedding renders by writing the updated result back into the stored
entry (same key, same timestamp) — Python object aliasing made
explicit. -/
def chatAfterLookup (st : Settings) (env : ChatEnv) (c : ResponseCache) (q rid : String)
    (clk : Clock) : Option (ChatResult × ℤ) → ChatOutcome
  | some (r, ts) =>
    if clk.now - ts < c.ttl then
      ⟨{ r with request_id := rid, total_time_ms := clk.elapsedMs },
       { c with hits := c.hits + 1,
                cache := assocSet (hashQuery q)
                  ({ r with request_id := rid, total_time_ms := clk.elapsedMs }, ts) c.cache },
       false, false⟩
    else
      chatPipeline st env
        { c with misses := c.misses + 1, cache := eraseKey (hashQuery q) c.cache } q rid clk
  | none => chatPipeline st env { c with misses := c.misses + 1 } q rid clk

/-- `ByteDentChatbot.chat`. -/
def chat (st : Settings) (env : ChatEnv) (c : ResponseCache)
    (question request_id : String) (clk : Clock) : ChatOutcome :=
  chatAfterLookup st env c question request_id clk (lookupEntry (hashQuery question) c.cache)

/-- A character-level tokenizer instance for concrete runs of the chunker
(each character is one token). -/
def encCH (s : String) : List Nat := s.data.map Char.toNat

/-- Inverse of `encCH`: decoding a character-level token list. -/
def decCH (l : List Nat) : String := String.mk (l.map Char.ofNat)

/-- A concrete knowledge-base chunk for witness scenarios. -/
def sampleChunk : Chunk := ⟨"CBCT info", 0, "dental_kb", 5⟩

/-- A trivial retrieval result used inside concrete cached results. -/
def dummyRR : RetrievalResult := ⟨[], [], 0, false, 0⟩

/-- A trivial gate decision used inside concrete cached results. -/
def dummyGD : GateDecision := ⟨false, "ok"⟩

/-- A concrete answer-typed `ChatResult` for cache scenarios. -/
def sampleAnswer : ChatResult := ⟨"answer", "msg", ["cite"], none, dummyRR, dummyGD, 0, 0, "r0"⟩

/-- A cached answer whose `request_id`/`total_time_ms` witness mutation. -/
def rOld : ChatResult := ⟨"answer", "msg", ["cite"], none, dummyRR, dummyGD, 0, 5, "old"⟩

/-- A cache holding `rOld` under key `"q"`, inserted at time 0. -/
def cHit : ResponseCache := ⟨[("q", rOld, 0)], 100, 3600, 0, 0⟩

/-- A cache holding one entry inserted at time 0 (expired by time 4000). -/
def cOld : ResponseCache := ⟨[("old query", sampleAnswer, 0)], 100, 3600, 0, 0⟩

/-- Collaborator behaviour: empty retrieval, unparseable model output. -/
def envEmpty : ChatEnv := ⟨[], "", fun _ => none⟩

/-- Collaborator behaviour: good retrieval, model declares a handoff with
citations and no reason (the validation passthrough scenario). -/
def envHand : ChatEnv := ⟨[(sampleChunk, mkRat 9 10)], "\x7bx\x7d",
  fun _ => some ⟨some ("handoff"), some ("m"), some (["c"]), none⟩⟩

/-- Collaborator behaviour: good retrieval, model returns a valid answer. -/
def envAns : ChatEnv := ⟨[(sampleChunk, mkRat 9 10)], "\x7bx\x7d",
  fun _ => some ⟨some ("answer"), some ("CBCT is 3D imaging"), some (["CBCT is a cone beam scan"]), none⟩⟩

/-- Collaborator behaviour: good retrieval, model output with no JSON
object boundaries. -/
def envBad : ChatEnv := ⟨[(sampleChunk, mkRat 9 10)], "hello", fun _ => none⟩

/-- Collaborator behaviour: good retrieval, model returns an answer whose
only citation is the empty string (non-empty list, no non-empty
citation). -/
def envEmptyCitation : ChatEnv := ⟨[(sampleChunk, mkRat 9 10)], "\x7bx\x7d",
  fun _ => some ⟨some ("answer"), some ("CBCT is 3D imaging"), some ([""]), none⟩⟩

/-- Clock of a request at time 100. -/
def clk1 : Clock := ⟨100, 1, 2, 3⟩

/-- Clock of a request at time 4000 (past `cOld`'s TTL). -/
def clkLate : Clock := ⟨4000, 1, 2, 3⟩

theorem lookupEntry_assocSet_self (k : String) (v : ChatResult × ℤ) (l : List CacheEntry) :
    lookupEntry k (assocSet k v l) = some v := by
  induction l with
  | nil => simp [assocSet, lookupEntry]
  | cons e t ih =>
    by_cases h : e.1 = k
    · simp [assocSet, h, lookupEntry]
    · simp [assocSet, h, lookupEntry, ih]

theorem assocSet_of_none (k : String) (v : ChatResult × ℤ) (l : List CacheEntry)
    (h : lookupEntry k l = none) : assocSet k v l = l ++ [(k, v)] := by
  induction l with
  | nil => simp [assocSet]
  | cons e t ih =>
    by_cases he : e.1 = k
    · simp [lookupEntry, he] at h
    · simp [lookupEntry, he] at h
      simp [assocSet, he, ih h]

theorem lookupEntry_eq_none (k : String) (l : List CacheEntry) :
    lookupEntry k l = none ↔ ∀ e ∈ l, e.1 ≠ k := by
  induction l with
  | nil => simp [lookupEntry]
  | cons e t ih =>
    by_cases he : e.1 = k
    · simp [lookupEntry, he]
    · simp [lookupEntry, he, ih]

theorem lookupEntry_append_none (k : String) (l1 l2 : List CacheEntry)
    (h : lookupEntry k l1 = none) : lookupEntry k (l1 ++ l2) = lookupEntry k l2 := by
  induction l1 with
  | nil => simp
  | cons e t ih =>
    by_cases he : e.1 = k
    · simp [lookupEntry, he] at h
    · simp [lookupEntry, he] at h ⊢
      exact ih h

theorem mem_eraseKey (k : String) (l : List CacheEntry) (e : CacheEntry)
    (h : e ∈ eraseKey k l) : e ∈ l := by
  induction l with
  | nil => simp [eraseKey] at h
  | cons x t ih =>
    by_cases hx : x.1 = k
    · simp [eraseKey, hx] at h
      exact List.mem_cons_of_mem x h
    · simp [eraseKey, hx] at h
      rcases h with h | h
      · exact h ▸ List.mem_cons_self x t
      · exact List.mem_cons_of_mem x (ih h)

theorem mem_assocSet (k : String) (v : ChatResult × ℤ) (l : List CacheEntry) (e : CacheEntry)
    (h : e ∈ assocSet k v l) : e = (k, v) ∨ e ∈ l := by
  induction l with
  | nil => simpa [assocSet] using h
  | cons x t ih =>
    by_cases hx : x.1 = k
    · simp [assocSet, hx] at h
      rcases h with h | h
      · exact Or.inl h
      · exact Or.inr (List.mem_cons_of_mem x h)
    · simp [assocSet, hx] at h
      rcases h with h | h
      · exact Or.inr (h ▸ List.mem_cons_self x t)
      · rcases ih h with h' | h'
        · exact Or.inl h'
        · exact Or.inr (List.mem_cons_of_mem x h')

theorem lookupEntry_mem (k : String) (l : List CacheEntry) (v : ChatResult × ℤ)
    (h : lookupEntry k l = some v) : (k, v) ∈ l := by
  induction l with
  | nil => simp [lookupEntry] at h
  | cons e t ih =>
    by_cases he : e.1 = k
    · simp [lookupEntry, he] at h
      have : e = (k, v) := by
        cases e with
        | mk e1 e2 => simp at he; simp [he, ← h]
      exact this ▸ List.mem_cons_self e t
    · simp [lookupEntry, he] at h
      exact List.mem_cons_of_mem e (ih h)

theorem minFold_eq_self (t : List CacheEntry) (b : CacheEntry)
    (h : ∀ x ∈ t, b.2.2 ≤ x.2.2) :
    t.foldl (fun best x => if x.2.2 < best.2.2 then x else best) b = b := by
  induction t with
  | nil => rfl
  | cons x r ih =>
    have hx : ¬ x.2.2 < b.2.2 := not_lt.mpr (h x (List.mem_cons_self x r))
    simp only [List.foldl_cons, if_neg hx]
    exact ih (fun y hy => h y (List.mem_cons_of_mem x hy))

theorem minByTs_head (b : CacheEntry) (t : List CacheEntry)
    (h : ∀ x ∈ t, b.2.2 ≤ x.2.2) : minByTs (b :: t) = some b := by
  simp only [minByTs, minFold_eq_self t b h]

theorem set_cache_below (c : ResponseCache) (q : String) (r : ChatResult) (now : ℤ)
    (h : c.cache.length < c.max_size) :
    (c.set q r now).cache = assocSet (hashQuery q) (r, now) c.cache := by
  simp only [ResponseCache.set]
  rw [if_neg (not_le.mpr h)]

theorem set_max_size (c : ResponseCache) (q : String) (r : ChatResult) (now : ℤ) :
    (c.set q r now).max_size = c.max_size := rfl

theorem set_ttl (c : ResponseCache) (q : String) (r : ChatResult) (now : ℤ) :
    (c.set q r now).ttl = c.ttl := rfl

theorem set_cache_at_capacity (c : ResponseCache) (q : String) (r : ChatResult) (now : ℤ)
    (b : CacheEntry) (t : List CacheEntry)
    (hc : c.cache = b :: t) (hcap : c.max_size ≤ c.cache.length)
    (hmin : ∀ x ∈ t, b.2.2 ≤ x.2.2) :
    (c.set q r now).cache = assocSet (hashQuery q) (r, now) t := by
  simp only [ResponseCache.set]
  rw [if_pos hcap, hc, minByTs_head b t hmin]
  simp [eraseKey]

theorem seqSet_nil (c : ResponseCache) : seqSet c [] = c := rfl

theorem seqSet_cons (c : ResponseCache) (e : String × ChatResult × ℤ)
    (l : List (String × ChatResult × ℤ)) :
    seqSet c (e :: l) = seqSet (c.set e.1 e.2.1 e.2.2) l := rfl

theorem seqSet_append (c : ResponseCache) (l1 l2 : List (String × ChatResult × ℤ)) :
    seqSet c (l1 ++ l2) = seqSet (seqSet c l1) l2 :=
  List.foldl_append _ _ _ _

theorem seqSet_fill (l : List (String × ChatResult × ℤ)) : ∀ c : ResponseCache,
    c.cache.length + l.length ≤ c.max_size →
    (∀ e ∈ l, lookupEntry (hashQuery e.1) c.cache = none) →
    (l.map (fun e => hashQuery e.1)).Nodup →
    (seqSet c l).cache = c.cache ++ l.map (fun e => (hashQuery e.1, e.2)) ∧
    (seqSet c l).max_size = c.max_size ∧ (seqSet c l).ttl = c.ttl := by
  induction l with
  | nil => intro c _ _ _; simp [seqSet]
  | cons e t ih =>
    intro c hcap hfresh hnodup
    have hlt : c.cache.length < c.max_size := by
      simp only [List.length_cons] at hcap; omega
    have hse : (c.set e.1 e.2.1 e.2.2).cache = c.cache ++ [(hashQuery e.1, e.2)] := by
      rw [set_cache_below _ _ _ _ hlt,
        assocSet_of_none _ _ _ (hfresh e (List.mem_cons_self e t))]
    have hkey : hashQuery e.1 ∉ t.map (fun x => hashQuery x.1) := by
      have := List.nodup_cons.mp hnodup
      exact this.1
    obtain ⟨h1, h2, h3⟩ := ih (c.set e.1 e.2.1 e.2.2)
      (by rw [hse, set_max_size]; simp only [List.length_append, List.length_cons] at hcap ⊢
          simp; omega)
      (by intro x hx
          rw [hse, lookupEntry_append_none _ _ _ (hfresh x (List.mem_cons_of_mem e hx))]
          have hne : hashQuery e.1 ≠ hashQuery x.1 := by
            intro hcontra
            exact hkey (hcontra ▸ List.mem_map.mpr ⟨x, hx, rfl⟩)
          simp [lookupEntry, hne])
      ((List.nodup_cons.mp hnodup).2)
    refine ⟨?_, ?_, ?_⟩
    · rw [seqSet_cons, h1, hse]
      simp
    · rw [seqSet_cons, h2, set_max_size]
    · rw [seqSet_cons, h3, set_ttl]

/-- Claim C5: inserting `max_size + 1` queries with pairwise-distinct
normalized keys into an initially empty cache, the last insertion finding
the cache at capacity, evicts exactly the oldest-inserted entry: the final
store is the remaining `max_size` entries in order, the first query's key
is absent, and the size is exactly `max_size`. -/
theorem cache_eviction_oldest (ms : Nat) (ttl : ℤ)
    (first lastq : String × ChatResult × ℤ) (mid : List (String × ChatResult × ℤ))
    (hlen : mid.length + 1 = ms)
    (hkeys : (((first :: mid) ++ [lastq]).map (fun e => hashQuery e.1)).Nodup)
    (htime : ∀ e ∈ mid ++ [lastq], first.2.2 ≤ e.2.2) :
    (seqSet (emptyCache ms ttl) ((first :: mid) ++ [lastq])).cache
        = (mid ++ [lastq]).map (fun e => (hashQuery e.1, e.2)) ∧
    (seqSet (emptyCache ms ttl) ((first :: mid) ++ [lastq])).cache.length = ms ∧
    lookupEntry (hashQuery first.1)
        (seqSet (emptyCache ms ttl) ((first :: mid) ++ [lastq])).cache = none := by
  have hmapapp : (((first :: mid) ++ [lastq]).map (fun e => hashQuery e.1))
      = ((first :: mid).map (fun e => hashQuery e.1)) ++ [hashQuery lastq.1] := by
    simp
  have hnodup1 : ((first :: mid).map (fun e => hashQuery e.1)).Nodup := by
    rw [hmapapp] at hkeys; exact hkeys.of_append_left
  obtain ⟨h1, h2, h3⟩ := seqSet_fill (first :: mid) (emptyCache ms ttl)
    (by simp [emptyCache]; omega)
    (by intro e _; rfl)
    hnodup1
  have hc1 : (seqSet (emptyCache ms ttl) (first :: mid)).cache
      = (hashQuery first.1, first.2) :: mid.map (fun e => (hashQuery e.1, e.2)) := by
    rw [h1]; simp [emptyCache]
  have hcap : (seqSet (emptyCache ms ttl) (first :: mid)).max_size
      ≤ (seqSet (emptyCache ms ttl) (first :: mid)).cache.length := by
    rw [h2, hc1]; simp [emptyCache]; omega
  have hmin : ∀ x ∈ mid.map (fun e => (hashQuery e.1, e.2)),
      ((hashQuery first.1, first.2) : CacheEntry).2.2 ≤ x.2.2 := by
    intro x hx
    rcases List.mem_map.mp hx with ⟨e, he, rfl⟩
    exact htime e (List.mem_append.mpr (Or.inl he))
  have hdisj : List.Disjoint ((first :: mid).map (fun e => hashQuery e.1)) [hashQuery lastq.1] := by
    rw [hmapapp] at hkeys
    exact (List.nodup_append.mp hkeys).2.2
  have hlastfresh : lookupEntry (hashQuery lastq.1) (mid.map (fun e => (hashQuery e.1, e.2))) = none := by
    rw [lookupEntry_eq_none]
    intro x hx
    rcases List.mem_map.mp hx with ⟨e, he, rfl⟩
    intro hcontra
    exact hdisj (List.mem_map.mpr ⟨e, List.mem_cons_of_mem first he, hcontra⟩)
      (List.mem_singleton.mpr rfl)
  have hset : (seqSet (emptyCache ms ttl) ((first :: mid) ++ [lastq])).cache
      = mid.map (fun e => (hashQuery e.1, e.2)) ++ [(hashQuery lastq.1, lastq.2)] := by
    rw [seqSet_append, seqSet_cons, seqSet_nil,
      set_cache_at_capacity _ _ _ _ _ _ hc1 hcap hmin,
      assocSet_of_none _ _ _ hlastfresh]
  have hfirstkey : hashQuery first.1 ∉ ((mid ++ [lastq]).map (fun e => hashQuery e.1)) := by
    have : (((first :: mid) ++ [lastq]).map (fun e => hashQuery e.1))
        = hashQuery first.1 :: ((mid ++ [lastq]).map (fun e => hashQuery e.1)) := by simp
    rw [this] at hkeys
    exact (List.nodup_cons.mp hkeys).1
  refine ⟨?_, ?_, ?_⟩
  · rw [hset]; simp
  · rw [hset]; simp; omega
  · rw [hset, lookupEntry_eq_none]
    intro x hx hcontra
    have hx' : x ∈ (mid ++ [lastq]).map (fun e => (hashQuery e.1, e.2)) := by
      simpa using hx
    rcases List.mem_map.mp hx' with ⟨e, he, rfl⟩
    exact hfirstkey (List.mem_map.mpr ⟨e, he, hcontra⟩)

/-- Witness for C5: capacity 2, three distinct queries inserted at times
0, 1, 2; the final cache has exactly 2 entries and query `"a"` is gone. -/
theorem cache_eviction_oldest_witness :
    (seqSet (emptyCache 2 3600)
      ((("a", sampleAnswer, (0:ℤ)) :: [("b", sampleAnswer, (1:ℤ))]
        ++ [("c", sampleAnswer, (2:ℤ))]))).cache.length = 2 ∧
    lookupEntry (hashQuery ("a"))
      (seqSet (emptyCache 2 3600)
        ((("a", sampleAnswer, (0:ℤ)) :: [("b", sampleAnswer, (1:ℤ))]
          ++ [("c", sampleAnswer, (2:ℤ))]))).cache = none :=
  ⟨(cache_eviction_oldest 2 3600 ("a", sampleAnswer, (0:ℤ)) ("c", sampleAnswer, (2:ℤ))
      [("b", sampleAnswer, (1:ℤ))] (by decide) (by decide) (by decide)).2.1,
   (cache_eviction_oldest 2 3600 ("a", sampleAnswer, (0:ℤ)) ("c", sampleAnswer, (2:ℤ))
      [("b", sampleAnswer, (1:ℤ))] (by decide) (by decide) (by decide)).2.2⟩

theorem chunkLoop_isSome (decode : List Nat → String) (cs ov : Nat) (src : String)
    (tokens : List Nat) (h : ov < cs) :
    ∀ fuel start cid, tokens.length ≤ start + fuel →
    (chunkLoop decode cs ov src tokens fuel start cid).isSome = true := by
  intro fuel
  induction fuel with
  | zero =>
    intro start cid hle
    simp only [chunkLoop]
    rw [if_pos (by omega)]
    rfl
  | succ n ih =>
    intro start cid hle
    simp only [chunkLoop]
    by_cases hs : start < tokens.length
    · rw [if_pos hs]
      have hrec := ih (start + cs - ov)
        (if pyStrip (decode ((tokens.drop start).take cs)) = "" then cid else cid + 1)
        (by omega)
      rcases Option.isSome_iff_exists.mp hrec with ⟨rest, hrest⟩
      rw [hrest]
      rfl
    · rw [if_neg hs]
      rfl

theorem chunkLoop_mem (decode : List Nat → String) (cs ov : Nat) (src : String)
    (tokens : List Nat) (hov : ov ≤ cs) :
    ∀ fuel i cid c, c ∈ (chunkLoop decode cs ov src tokens fuel (i * (cs - ov)) cid).getD [] →
    c.token_count ≤ cs ∧ ∃ j, c.token_count = (windowAt tokens cs ov j).length ∧
      c.text = pyStrip (decode (windowAt tokens cs ov j)) := by
  intro fuel
  induction fuel with
  | zero =>
    intro i cid c hc
    simp only [chunkLoop] at hc
    by_cases hl : tokens.length ≤ i * (cs - ov)
    · rw [if_pos hl] at hc; simp at hc
    · rw [if_neg hl] at hc; simp at hc
  | succ n ih =>
    intro i cid c hc
    simp only [chunkLoop] at hc
    by_cases hs : i * (cs - ov) < tokens.length
    · rw [if_pos hs] at hc
      have harith : i * (cs - ov) + cs - ov = (i + 1) * (cs - ov) := by
        rw [Nat.succ_mul]
        omega
      rw [harith] at hc
      rcases hrec : chunkLoop decode cs ov src tokens n ((i + 1) * (cs - ov))
          (if pyStrip (decode ((tokens.drop (i * (cs - ov))).take cs)) = "" then cid
           else cid + 1) with _ | rest
      · rw [hrec] at hc; simp at hc
      · rw [hrec] at hc
        simp only [Option.getD_some] at hc
        by_cases hempty : pyStrip (decode ((tokens.drop (i * (cs - ov))).take cs)) = ""
        · rw [if_pos hempty] at hc
          have := ih (i + 1)
            (if pyStrip (decode ((tokens.drop (i * (cs - ov))).take cs)) = "" then cid
             else cid + 1) c
          rw [hrec] at this
          exact this hc
        · rw [if_neg hempty] at hc
          rcases List.mem_cons.mp hc with heq | hmem
          · subst heq
            refine ⟨?_, i, ?_, ?_⟩
            · simp [List.length_take]
            · rfl
            · rfl
          · have := ih (i + 1)
              (if pyStrip (decode ((tokens.drop (i * (cs - ov))).take cs)) = "" then cid
               else cid + 1) c
            rw [hrec] at this
            exact this hmem
    · rw [if_neg hs] at hc
      simp at hc

theorem window_overlap (tokens : List Nat) (cs ov i : Nat) (hov : ov < cs)
    (hfull : i * (cs - ov) + cs ≤ tokens.length) :
    lastTokens ov (windowAt tokens cs ov i) = (windowAt tokens cs ov (i + 1)).take ov ∧
    (lastTokens ov (windowAt tokens cs ov i)).length = ov := by
  have hwlen : (windowAt tokens cs ov i).length = cs := by
    simp only [windowAt, List.length_take, List.length_drop]
    omega
  have hlhs : lastTokens ov (windowAt tokens cs ov i)
      = (tokens.drop ((i + 1) * (cs - ov))).take ov := by
    simp only [lastTokens]
    rw [hwlen]
    simp only [windowAt]
    rw [List.drop_take, List.drop_drop]
    have h1 : cs - (cs - ov) = ov := by omega
    have h2 : i * (cs - ov) + (cs - ov) = (i + 1) * (cs - ov) := by
      rw [Nat.succ_mul]
    rw [h1, h2]
  have hrhs : (windowAt tokens cs ov (i + 1)).take ov
      = (tokens.drop ((i + 1) * (cs - ov))).take ov := by
    simp only [windowAt]
    rw [List.take_take]
    congr 1
    omega
  refine ⟨hlhs.trans hrhs.symm, ?_⟩
  rw [hlhs]
  simp only [List.length_take, List.length_drop]
  have : (i + 1) * (cs - ov) + ov ≤ tokens.length := by
    rw [Nat.succ_mul]
    omega
  omega

/-- Claim C10: if `overlap < chunk_size`, `chunk_text` terminates — the
fuelled loop completes within `tokens.length + 1` iterations because each
iteration advances the window start by `chunk_size - overlap ≥ 1` tokens
until it reaches the end of the token stream. -/
theorem chunk_text_terminates (encode : String → List Nat) (decode : List Nat → String)
    (cs ov : Nat) (text src : String) (h : ov < cs) :
    (chunk_text encode decode cs ov text src).isSome = true := by
  simp only [chunk_text]
  exact chunkLoop_isSome decode cs ov src (encode text) h ((encode text).length + 1) 0 0
    (by omega)

/-- Witness for C10 at a concrete tokenizer and input. -/
theorem chunk_text_terminates_witness :
    2 < 4 ∧ (chunk_text encCH decCH 4 2 ("abcdefg") ("src")).isSome = true :=
  ⟨by decide, chunk_text_terminates encCH decCH 4 2 ("abcdefg") ("src") (by decide)⟩

/-- Claim C6 (amended): every emitted chunk's `token_count` is at most
`chunk_size` and equals the length of the sliding window it was decoded
from; and whenever a window is full-length (its end within the token
stream), its last `overlap` tokens are exactly the first `overlap` tokens
of the next window (and that shared run has length exactly `overlap`).
Trailing truncated windows may overlap by fewer than `overlap` tokens. -/
theorem chunk_token_bound_and_overlap (encode : String → List Nat) (decode : List Nat → String)
    (cs ov : Nat) (text src : String) (hov : ov < cs) :
    (∀ c ∈ (chunk_text encode decode cs ov text src).getD [],
       c.token_count ≤ cs ∧
       ∃ j, c.token_count = (windowAt (encode text) cs ov j).length ∧
         c.text = pyStrip (decode (windowAt (encode text) cs ov j))) ∧
    (∀ i, i * (cs - ov) + cs ≤ (encode text).length →
       lastTokens ov (windowAt (encode text) cs ov i)
           = (windowAt (encode text) cs ov (i + 1)).take ov ∧
       (lastTokens ov (windowAt (encode text) cs ov i)).length = ov) := by
  constructor
  · intro c hc
    have hmem := chunkLoop_mem decode cs ov src (encode text) (le_of_lt hov)
      ((encode text).length + 1) 0 0 c
    rw [Nat.zero_mul] at hmem
    exact hmem hc
  · intro i hi
    exact window_overlap (encode text) cs ov i hov hi

/-- Witness for the amended C6 at a concrete tokenizer and input. -/
theorem chunk_token_bound_and_overlap_witness :
    2 < 4 ∧
    ((∀ c ∈ (chunk_text encCH decCH 4 2 ("abcdefg") ("src")).getD [],
       c.token_count ≤ 4 ∧
       ∃ j, c.token_count = (windowAt (encCH ("abcdefg")) 4 2 j).length ∧
         c.text = pyStrip (decCH (windowAt (encCH ("abcdefg")) 4 2 j))) ∧
    (∀ i, i * (4 - 2) + 4 ≤ (encCH ("abcdefg")).length →
       lastTokens 2 (windowAt (encCH ("abcdefg")) 4 2 i)
           = (windowAt (encCH ("abcdefg")) 4 2 (i + 1)).take 2 ∧
       (lastTokens 2 (windowAt (encCH ("abcdefg")) 4 2 i)).length = 2)) :=
  ⟨by decide, chunk_token_bound_and_overlap encCH decCH 4 2 ("abcdefg") ("src") (by decide)⟩

/-- Counterexample to C6 as stated: with a character tokenizer,
`chunk_size = 4`, `overlap = 2` and input `"abcdefg"`, the emitted chunks
are `"abcd", "cdef", "efg", "g"`; re-encoding the last two consecutive
chunks, the 2-token suffix of `"efg"` is not the 2-token prefix of `"g"`
— the final truncated window overlaps by only one token, not exactly
`overlap`. -/
theorem chunk_overlap_counterexample :
    ((chunk_text encCH decCH 4 2 ("abcdefg") ("src")).getD []).map Chunk.text
        = ["abcd", "cdef", "efg", "g"] ∧
    lastTokens 2 (encCH ("efg")) ≠ (encCH ("g")).take 2 := by
  constructor
  · decide
  · decide

theorem str_ne_of_head (a b : String) (h : a.data.head? ≠ b.data.head?) : a ≠ b := by
  intro he
  exact h (by rw [he])

theorem lowSimReason_head (s : ℚ) : (lowSimReason s).data.head? = some 'L' := rfl

theorem topicReason_head (t : String) : (topicReason t).data.head? = some 'Q' := rfl

/-- Claim C3: the gate's checks run in a fixed order and the first match
wins — a query that both contains a disallowed topic keyword and has
non-empty retrieval with `max_score` below the handoff threshold is
handed off with the low-similarity reason carrying the numeric score
(check 2 fires before check 3 is consulted). -/
theorem gate_low_similarity_precedes_topic (st : Settings) (q : String) (rr : RetrievalResult)
    (h1 : rr.chunks ≠ []) (h2 : rr.max_score < st.handoff_similarity_threshold)
    (_h3 : ∃ t ∈ st.handoff_required_topics, strContains (strLower q) t = true) :
    answerability_gate st q rr = ⟨true, lowSimReason rr.max_score⟩ := by
  simp only [answerability_gate]
  rw [if_neg h1, if_pos h2]

/-- Witness for C3: `"pricing info"` contains topic `"pricing"` and has a
best score of 0.1, below the 0.3 handoff threshold; the surfaced reason is
the low-similarity one. -/
theorem gate_low_similarity_precedes_topic_witness :
    (([sampleChunk] : List Chunk) ≠ [] ∧ mkRat 1 10 < defaultSettings.handoff_similarity_threshold ∧
      (∃ t ∈ defaultSettings.handoff_required_topics,
        strContains (strLower ("pricing info")) t = true)) ∧
    answerability_gate defaultSettings ("pricing info")
        ⟨[sampleChunk], [mkRat 1 10], mkRat 1 10, true, 0⟩
      = ⟨true, lowSimReason (mkRat 1 10)⟩ :=
  ⟨⟨by decide, by decide, by decide⟩,
   gate_low_similarity_precedes_topic defaultSettings ("pricing info")
     ⟨[sampleChunk], [mkRat 1 10], mkRat 1 10, true, 0⟩ (by decide) (by decide) (by decide)⟩

/-- Claim C7: with non-empty retrieval and `max_score` exactly equal to
`handoff_similarity_threshold`, gate check 2 does not fire (the comparison
is strict `<`), so whatever the gate decides, its reason is never the
low-similarity reason. -/
theorem gate_threshold_boundary (st : Settings) (q : String) (rr : RetrievalResult)
    (h1 : rr.chunks ≠ []) (h2 : rr.max_score = st.handoff_similarity_threshold) :
    ∀ s : ℚ, (answerability_gate st q rr).reason ≠ lowSimReason s := by
  intro s
  have hnlt : ¬ rr.max_score < st.handoff_similarity_threshold := by
    rw [h2]; exact lt_irrefl _
  simp only [answerability_gate]
  rw [if_neg h1, if_neg hnlt]
  rcases htf : st.handoff_required_topics.find? (fun t => strContains (strLower q) t) with _ | t
  · rcases hpf : patient_patterns.find? (fun p => strContains (strLower q) p) with _ | p
    · show passReason ≠ lowSimReason s
      exact str_ne_of_head _ _ (by rw [lowSimReason_head]; decide)
    · show patientReason ≠ lowSimReason s
      exact str_ne_of_head _ _ (by rw [lowSimReason_head]; decide)
  · show topicReason t ≠ lowSimReason s
    exact str_ne_of_head _ _ (by rw [lowSimReason_head, topicReason_head]; decide)

/-- Witness for C7: best score exactly 0.3 = threshold, query even contains
a disallowed topic — the decision's reason is not a low-similarity one. -/
theorem gate_threshold_boundary_witness :
    (([sampleChunk] : List Chunk) ≠ [] ∧
      (mkRat 3 10 : ℚ) = defaultSettings.handoff_similarity_threshold) ∧
    (∀ s : ℚ, (answerability_gate defaultSettings ("pricing info")
        ⟨[sampleChunk], [mkRat 3 10], mkRat 3 10, true, 0⟩).reason ≠ lowSimReason s) :=
  ⟨⟨by decide, by decide⟩,
   gate_threshold_boundary defaultSettings ("pricing info")
     ⟨[sampleChunk], [mkRat 3 10], mkRat 3 10, true, 0⟩ (by decide) (by decide)⟩

theorem chat_hit (st : Settings) (env : ChatEnv) (c : ResponseCache) (q rid : String)
    (clk : Clock) (r : ChatResult) (ts : ℤ)
    (h1 : lookupEntry (hashQuery q) c.cache = some (r, ts)) (h2 : clk.now - ts < c.ttl) :
    chat st env c q rid clk =
      ⟨{ r with request_id := rid, total_time_ms := clk.elapsedMs },
       { c with hits := c.hits + 1,
                cache := assocSet (hashQuery q)
                  ({ r with request_id := rid, total_time_ms := clk.elapsedMs }, ts) c.cache },
       false, false⟩ := by
  unfold chat
  rw [h1]
  simp only [chatAfterLookup]
  rw [if_pos h2]

theorem chat_miss (st : Settings) (env : ChatEnv) (c : ResponseCache) (q rid : String)
    (clk : Clock) (h1 : lookupEntry (hashQuery q) c.cache = none) :
    chat st env c q rid clk
      = chatPipeline st env { c with misses := c.misses + 1 } q rid clk := by
  unfold chat
  rw [h1]
  simp only [chatAfterLookup]

theorem chat_expired (st : Settings) (env : ChatEnv) (c : ResponseCache) (q rid : String)
    (clk : Clock) (r : ChatResult) (ts : ℤ)
    (h1 : lookupEntry (hashQuery q) c.cache = some (r, ts)) (h2 : ¬ clk.now - ts < c.ttl) :
    chat st env c q rid clk
      = chatPipeline st env
          { c with misses := c.misses + 1, cache := eraseKey (hashQuery q) c.cache }
          q rid clk := by
  unfold chat
  rw [h1]
  simp only [chatAfterLookup]
  rw [if_neg h2]

theorem chatPipeline_spec (st : Settings) (env : ChatEnv) (c : ResponseCache)
    (q rid : String) (clk : Clock) (o : ChatOutcome)
    (ho : chatPipeline st env c q rid clk = o) :
    (o.result.type = "answer" →
        o.result.citations ≠ [] ∧ o.cache = c.set q o.result clk.now) ∧
    (o.result.type ≠ "answer" → o.cache = c) ∧
    (o.result.type = "handoff" →
        (o.result.citations = [] ∧ ∃ s, o.result.handoff_reason = some s) ∨
        (∃ p, parse_json_response env.jsonLoads env.rawOutput = some p ∧
           o.result.type = p.type.getD ("handoff") ∧
           o.result.citations = p.citations.getD [] ∧
           o.result.handoff_reason = p.handoff_reason)) := by
  unfold chatPipeline chatGate at ho
  by_cases hgate : (answerability_gate st q
      (retrieve_context st env.searchResults clk.retrievalMs)).should_handoff = true
  · rw [if_pos hgate] at ho
    subst ho
    refine ⟨?_, fun _ => rfl, fun _ => Or.inl ⟨rfl, _, rfl⟩⟩
    intro h
    simp at h
  · rw [if_neg hgate] at ho
    rcases hparse : parse_json_response env.jsonLoads env.rawOutput with _ | parsed
    · rw [hparse] at ho
      simp only [chatValidate] at ho
      subst ho
      refine ⟨?_, fun _ => rfl, fun _ => Or.inl ⟨rfl, _, rfl⟩⟩
      intro h
      simp at h
    · rw [hparse] at ho
      simp only [chatValidate] at ho
      by_cases hu : parsed.type.getD ("handoff") = "answer" ∧
          check_uncertainty st (parsed.message.getD ("")) = true
      · rw [if_pos hu] at ho
        subst ho
        refine ⟨?_, fun _ => rfl, fun _ => Or.inl ⟨rfl, _, rfl⟩⟩
        intro h
        simp at h
      · rw [if_neg hu] at ho
        by_cases hm : parsed.type.getD ("handoff") = "answer" ∧ parsed.citations.getD [] = []
        · rw [if_pos hm] at ho
          subst ho
          refine ⟨?_, fun _ => rfl, fun _ => Or.inl ⟨rfl, _, rfl⟩⟩
          intro h
          simp at h
        · rw [if_neg hm] at ho
          by_cases hans : parsed.type.getD ("handoff") = "answer"
          · rw [if_pos hans] at ho
            subst ho
            refine ⟨?_, ?_, ?_⟩
            · intro _
              refine ⟨?_, rfl⟩
              intro hcit
              exact hm ⟨hans, hcit⟩
            · intro h
              exact absurd hans h
            · intro h
              simp only [] at h
              rw [hans] at h
              simp at h
          · rw [if_neg hans] at ho
            subst ho
            refine ⟨?_, fun _ => rfl, ?_⟩
            · intro h
              exact absurd h hans
            · intro _
              exact Or.inr ⟨parsed, by simp [hparse], rfl, rfl, rfl⟩

theorem lookup_set_self (c : ResponseCache) (q : String) (r : ChatResult) (now : ℤ) :
    lookupEntry (hashQuery q) (c.set q r now).cache = some (r, now) := by
  simp only [ResponseCache.set]
  exact lookupEntry_assocSet_self _ _ _

theorem mem_set_cache (c : ResponseCache) (q : String) (r : ChatResult) (now : ℤ)
    (e : CacheEntry) (h : e ∈ (c.set q r now).cache) :
    e = (hashQuery q, r, now) ∨ e ∈ c.cache := by
  simp only [ResponseCache.set] at h
  rcases mem_assocSet _ _ _ _ h with h' | h'
  · exact Or.inl h'
  · right
    by_cases hcap : c.max_size ≤ c.cache.length
    · rw [if_pos hcap] at h'
      rcases hmin : minByTs c.cache with _ | b
      · rw [hmin] at h'
        exact h'
      · rw [hmin] at h'
        exact mem_eraseKey _ _ _ h'
    · rw [if_neg hcap] at h'
      exact h'

theorem chatPipeline_citation_invariant (st : Settings) (env : ChatEnv) (c : ResponseCache)
    (q rid : String) (clk : Clock)
    (hinv : ∀ e ∈ c.cache, e.2.1.type = "answer" ∧ e.2.1.citations ≠ []) :
    ((chatPipeline st env c q rid clk).result.type = "answer" →
        (chatPipeline st env c q rid clk).result.citations ≠ []) ∧
    ((chatPipeline st env c q rid clk).result.type = "handoff" →
        ((chatPipeline st env c q rid clk).result.citations = [] ∧
         ∃ s, (chatPipeline st env c q rid clk).result.handoff_reason = some s) ∨
        (∃ p, parse_json_response env.jsonLoads env.rawOutput = some p ∧
           (chatPipeline st env c q rid clk).result.type = p.type.getD ("handoff") ∧
           (chatPipeline st env c q rid clk).result.citations = p.citations.getD [] ∧
           (chatPipeline st env c q rid clk).result.handoff_reason = p.handoff_reason)) ∧
    (∀ e ∈ (chatPipeline st env c q rid clk).cache.cache,
        e.2.1.type = "answer" ∧ e.2.1.citations ≠ []) := by
  obtain ⟨s1, s2, s3⟩ := chatPipeline_spec st env c q rid clk _ rfl
  refine ⟨fun h => (s1 h).1, s3, ?_⟩
  by_cases h : (chatPipeline st env c q rid clk).result.type = "answer"
  · rw [(s1 h).2]
    intro e he
    rcases mem_set_cache _ _ _ _ _ he with heq | hold
    · subst heq
      exact ⟨h, (s1 h).1⟩
    · exact hinv e hold
  · rw [s2 h]
    exact hinv

theorem chat_stores_answer (st : Settings) (env : ChatEnv) (c : ResponseCache)
    (q rid : String) (clk : Clock)
    (h : (chat st env c q rid clk).result.type = "answer") :
    ∃ ts', lookupEntry (hashQuery q) (chat st env c q rid clk).cache.cache
        = some ((chat st env c q rid clk).result, ts') := by
  rcases hl : lookupEntry (hashQuery q) c.cache with _ | ⟨r, ts⟩
  · rw [chat_miss st env c q rid clk hl] at h ⊢
    obtain ⟨s1, _, _⟩ := chatPipeline_spec st env _ q rid clk _ rfl
    rw [(s1 h).2]
    exact ⟨clk.now, lookup_set_self _ _ _ _⟩
  · by_cases hf : clk.now - ts < c.ttl
    · rw [chat_hit st env c q rid clk r ts hl hf]
      exact ⟨ts, lookupEntry_assocSet_self _ _ _⟩
    · rw [chat_expired st env c q rid clk r ts hl hf] at h ⊢
      obtain ⟨s1, _, _⟩ := chatPipeline_spec st env _ q rid clk _ rfl
      rw [(s1 h).2]
      exact ⟨clk.now, lookup_set_self _ _ _ _⟩

/-- Claim C1 (amended): provided every cached entry is an answer with a
non-empty citations list, every `ChatResult` returned by `chat` satisfies:
an answer-typed result has a non-empty citations list (the check is
list-level only — the strings inside may all be empty, see the
counterexample); a handoff-typed result either is one of chat's own
handoffs (empty citations, reason set) or reproduces verbatim a model
output that itself declared `type = "handoff"` (whose citations may be
non-empty and whose `handoff_reason` may be absent); and every entry
stored in the cache afterwards is again an answer with a non-empty
citations list. -/
theorem chat_citation_invariant (st : Settings) (env : ChatEnv) (c : ResponseCache)
    (q rid : String) (clk : Clock)
    (hinv : ∀ e ∈ c.cache, e.2.1.type = "answer" ∧ e.2.1.citations ≠ []) :
    ((chat st env c q rid clk).result.type = "answer" →
        (chat st env c q rid clk).result.citations ≠ []) ∧
    ((chat st env c q rid clk).result.type = "handoff" →
        ((chat st env c q rid clk).result.citations = [] ∧
         ∃ s, (chat st env c q rid clk).result.handoff_reason = some s) ∨
        (∃ p, parse_json_response env.jsonLoads env.rawOutput = some p ∧
           (chat st env c q rid clk).result.type = p.type.getD ("handoff") ∧
           (chat st env c q rid clk).result.citations = p.citations.getD [] ∧
           (chat st env c q rid clk).result.handoff_reason = p.handoff_reason)) ∧
    (∀ e ∈ (chat st env c q rid clk).cache.cache,
        e.2.1.type = "answer" ∧ e.2.1.citations ≠ []) := by
  rcases hl : lookupEntry (hashQuery q) c.cache with _ | ⟨r, ts⟩
  · rw [chat_miss st env c q rid clk hl]
    exact chatPipeline_citation_invariant st env _ q rid clk hinv
  · by_cases hf : clk.now - ts < c.ttl
    · rw [chat_hit st env c q rid clk r ts hl hf]
      have hr := hinv (hashQuery q, r, ts) (lookupEntry_mem _ _ _ hl)
      refine ⟨fun _ => hr.2, ?_, ?_⟩
      · intro h
        have h2 : ("answer" : String) = "handoff" := hr.1.symm.trans h
        exact absurd h2 (by decide)
      · intro e he
        rcases mem_assocSet _ _ _ _ he with heq | hold
        · subst heq
          exact ⟨hr.1, hr.2⟩
        · exact hinv e hold
    · rw [chat_expired st env c q rid clk r ts hl hf]
      exact chatPipeline_citation_invariant st env _ q rid clk
        (fun e he => hinv e (mem_eraseKey _ _ _ he))

/-- Counterexample to C1 as stated, on both sides of the invariant.
Handoff side: the model declares `type = "handoff"` with citations
`["c"]` and no `handoff_reason`; step 7 passes it through verbatim, so
`chat` returns a handoff whose citations are non-empty and whose reason
is unset.  Answer side: the model declares `type = "answer"` with
citations `[""]` — a non-empty list containing no non-empty citation
string — and the validation (`not citations`, list-level only) accepts
it: `chat` returns it as an answer and stores it in the cache. -/
theorem chat_citation_invariant_counterexample :
    ((chat defaultSettings envHand (emptyCache 100 3600) ("What is CBCT?") ("r1") clk1).result.type
        = "handoff" ∧
    (chat defaultSettings envHand (emptyCache 100 3600) ("What is CBCT?") ("r1") clk1).result.citations
        = ["c"] ∧
    (chat defaultSettings envHand (emptyCache 100 3600) ("What is CBCT?") ("r1") clk1).result.handoff_reason
        = none) ∧
    ((chat defaultSettings envEmptyCitation (emptyCache 100 3600) ("What is CBCT?") ("r1") clk1).result.type
        = "answer" ∧
    (chat defaultSettings envEmptyCitation (emptyCache 100 3600) ("What is CBCT?") ("r1") clk1).result.citations
        = [""] ∧
    lookupEntry (hashQuery ("What is CBCT?"))
        (chat defaultSettings envEmptyCitation (emptyCache 100 3600) ("What is CBCT?") ("r1") clk1).cache.cache
      = some ((chat defaultSettings envEmptyCitation (emptyCache 100 3600) ("What is CBCT?") ("r1") clk1).result,
          100)) := by
  refine ⟨⟨by decide, by decide, by decide⟩, by decide, by decide, by decide⟩

/-- Witness for the amended C1 on an empty cache and an answering model. -/
theorem chat_citation_invariant_witness :
    (∀ e ∈ (emptyCache 100 3600).cache, e.2.1.type = "answer" ∧ e.2.1.citations ≠ []) ∧
    (((chat defaultSettings envAns (emptyCache 100 3600) ("What is CBCT?") ("r1") clk1).result.type = "answer" →
        (chat defaultSettings envAns (emptyCache 100 3600) ("What is CBCT?") ("r1") clk1).result.citations ≠ []) ∧
    ((chat defaultSettings envAns (emptyCache 100 3600) ("What is CBCT?") ("r1") clk1).result.type = "handoff" →
        ((chat defaultSettings envAns (emptyCache 100 3600) ("What is CBCT?") ("r1") clk1).result.citations = [] ∧
         ∃ s, (chat defaultSettings envAns (emptyCache 100 3600) ("What is CBCT?") ("r1") clk1).result.handoff_reason = some s) ∨
        (∃ p, parse_json_response envAns.jsonLoads envAns.rawOutput = some p ∧
           (chat defaultSettings envAns (emptyCache 100 3600) ("What is CBCT?") ("r1") clk1).result.type = p.type.getD ("handoff") ∧
           (chat defaultSettings envAns (emptyCache 100 3600) ("What is CBCT?") ("r1") clk1).result.citations = p.citations.getD [] ∧
           (chat defaultSettings envAns (emptyCache 100 3600) ("What is CBCT?") ("r1") clk1).result.handoff_reason = p.handoff_reason)) ∧
    (∀ e ∈ (chat defaultSettings envAns (emptyCache 100 3600) ("What is CBCT?") ("r1") clk1).cache.cache,
        e.2.1.type = "answer" ∧ e.2.1.citations ≠ [])) :=
  ⟨by decide,
   chat_citation_invariant defaultSettings envAns (emptyCache 100 3600) ("What is CBCT?") ("r1")
     clk1 (by decide)⟩

/-- Claim C2 (amended): on a cache hit, `chat` returns the stored result
with `request_id` and `total_time_ms` overwritten to the current request's
values (all other fields unchanged), and writes that same mutated object
back into the stored entry, in place, under the same key and insertion
timestamp — there is no clone; the stored copy is mutated by the hit. -/
theorem cache_hit_refresh (st : Settings) (env : ChatEnv) (c : ResponseCache)
    (q rid : String) (clk : Clock) (r : ChatResult) (ts : ℤ)
    (h1 : lookupEntry (hashQuery q) c.cache = some (r, ts))
    (h2 : clk.now - ts < c.ttl) :
    (chat st env c q rid clk).result
        = { r with request_id := rid, total_time_ms := clk.elapsedMs } ∧
    (chat st env c q rid clk).cache.cache
        = assocSet (hashQuery q) ((chat st env c q rid clk).result, ts) c.cache ∧
    (chat st env c q rid clk).invokedRetrieval = false ∧
    (chat st env c q rid clk).invokedGeneration = false := by
  rw [chat_hit st env c q rid clk r ts h1 h2]
  exact ⟨rfl, rfl, rfl, rfl⟩

/-- Counterexample to C2 as stated: serving a hit does mutate the stored
entry — afterwards the stored copy no longer equals the original
`(rOld, 0)` pair; its `request_id` now belongs to the second request. -/
theorem cache_hit_mutation_counterexample :
    lookupEntry (hashQuery ("q")) cHit.cache = some (rOld, 0) ∧
    (chat defaultSettings envEmpty cHit ("q") ("new") clk1).cache.cache ≠ cHit.cache ∧
    lookupEntry (hashQuery ("q"))
        (chat defaultSettings envEmpty cHit ("q") ("new") clk1).cache.cache
      ≠ some (rOld, 0) := by
  refine ⟨by decide, by decide, by decide⟩

/-- Witness for the amended C2 on the concrete hit scenario. -/
theorem cache_hit_refresh_witness :
    (lookupEntry (hashQuery ("q")) cHit.cache = some (rOld, 0) ∧
      clk1.now - 0 < cHit.ttl) ∧
    ((chat defaultSettings envEmpty cHit ("q") ("new") clk1).result
        = { rOld with request_id := "new", total_time_ms := clk1.elapsedMs } ∧
    (chat defaultSettings envEmpty cHit ("q") ("new") clk1).cache.cache
        = assocSet (hashQuery ("q"))
            ((chat defaultSettings envEmpty cHit ("q") ("new") clk1).result, 0) cHit.cache ∧
    (chat defaultSettings envEmpty cHit ("q") ("new") clk1).invokedRetrieval = false ∧
    (chat defaultSettings envEmpty cHit ("q") ("new") clk1).invokedGeneration = false) :=
  ⟨⟨by decide, by decide⟩,
   cache_hit_refresh defaultSettings envEmpty cHit ("q") ("new") clk1 rOld 0
     (by decide) (by decide)⟩

/-- Claim C4 (amended): on a cache miss, when the gate passes and JSON
extraction from the model output fails (no object boundaries or invalid
JSON — `parse_json_response` returns `none` exactly where the source
raises), `chat` returns a handoff whose reason is the source's literal
string `"Failed to parse model response"` (capital F), leaves the cache
entries untouched, and — being a total function of the parse outcome —
propagates no exception to the caller. -/
theorem parse_failure_handoff (st : Settings) (env : ChatEnv) (c : ResponseCache)
    (q rid : String) (clk : Clock)
    (hmiss : lookupEntry (hashQuery q) c.cache = none)
    (hgate : (answerability_gate st q
        (retrieve_context st env.searchResults clk.retrievalMs)).should_handoff = false)
    (hparse : parse_json_response env.jsonLoads env.rawOutput = none) :
    (chat st env c q rid clk).result.type = "handoff" ∧
    (chat st env c q rid clk).result.handoff_reason
        = some ("Failed to parse model response") ∧
    (chat st env c q rid clk).cache.cache = c.cache := by
  rw [chat_miss st env c q rid clk hmiss]
  unfold chatPipeline chatGate
  rw [if_neg (by rw [hgate]; exact Bool.false_ne_true), hparse]
  exact ⟨rfl, rfl, rfl⟩

/-- Counterexample to C4 as stated: on a model output with no JSON object
boundaries the parse fails and `chat` hands off, but the surfaced reason
string is `"Failed to parse model response"`, not the claim's lowercase
`"failed to parse model response"`. -/
theorem parse_failure_reason_counterexample :
    parse_json_response envBad.jsonLoads envBad.rawOutput = none ∧
    (chat defaultSettings envBad (emptyCache 100 3600) ("What is CBCT?") ("r1") clk1).result.type
        = "handoff" ∧
    (chat defaultSettings envBad (emptyCache 100 3600) ("What is CBCT?") ("r1") clk1).result.handoff_reason
        ≠ some ("failed to parse model response") := by
  refine ⟨by decide, by decide, by decide⟩

/-- Witness for the amended C4 on the concrete parse-failure scenario. -/
theorem parse_failure_handoff_witness :
    (lookupEntry (hashQuery ("What is CBCT?")) (emptyCache 100 3600).cache = none ∧
      (answerability_gate defaultSettings ("What is CBCT?")
        (retrieve_context defaultSettings envBad.searchResults clk1.retrievalMs)).should_handoff
          = false ∧
      parse_json_response envBad.jsonLoads envBad.rawOutput = none) ∧
    ((chat defaultSettings envBad (emptyCache 100 3600) ("What is CBCT?") ("r1") clk1).result.type
        = "handoff" ∧
    (chat defaultSettings envBad (emptyCache 100 3600) ("What is CBCT?") ("r1") clk1).result.handoff_reason
        = some ("Failed to parse model response") ∧
    (chat defaultSettings envBad (emptyCache 100 3600) ("What is CBCT?") ("r1") clk1).cache.cache
        = (emptyCache 100 3600).cache) :=
  ⟨⟨by decide, by decide, by decide⟩,
   parse_failure_handoff defaultSettings envBad (emptyCache 100 3600) ("What is CBCT?") ("r1")
     clk1 (by decide) (by decide) (by decide)⟩

/-- Claim C8: if a `chat` call returns an answer, that exact result is
stored in the cache under the question's normalized key at some timestamp
`ts`, and any later call on the same question whose clock falls within
the TTL window of `ts` is served from the cache: identical `message`,
`citations` and `type` (only `request_id`/`total_time_ms` are refreshed),
with neither retrieval nor generation invoked. -/
theorem chat_cached_idempotent (st : Settings) (env1 env2 : ChatEnv) (c : ResponseCache)
    (q rid1 rid2 : String) (clkA clkB : Clock)
    (h1 : (chat st env1 c q rid1 clkA).result.type = "answer") :
    ∃ ts, lookupEntry (hashQuery q) (chat st env1 c q rid1 clkA).cache.cache
        = some ((chat st env1 c q rid1 clkA).result, ts) ∧
      (clkB.now - ts < (chat st env1 c q rid1 clkA).cache.ttl →
        (chat st env2 (chat st env1 c q rid1 clkA).cache q rid2 clkB).result.message
            = (chat st env1 c q rid1 clkA).result.message ∧
        (chat st env2 (chat st env1 c q rid1 clkA).cache q rid2 clkB).result.citations
            = (chat st env1 c q rid1 clkA).result.citations ∧
        (chat st env2 (chat st env1 c q rid1 clkA).cache q rid2 clkB).result.type
            = (chat st env1 c q rid1 clkA).result.type ∧
        (chat st env2 (chat st env1 c q rid1 clkA).cache q rid2 clkB).invokedRetrieval = false ∧
        (chat st env2 (chat st env1 c q rid1 clkA).cache q rid2 clkB).invokedGeneration = false) := by
  obtain ⟨ts, hts⟩ := chat_stores_answer st env1 c q rid1 clkA h1
  refine ⟨ts, hts, fun hfresh => ?_⟩
  rw [chat_hit st env2 _ q rid2 clkB _ ts hts hfresh]
  exact ⟨rfl, rfl, rfl, rfl, rfl⟩

/-- Witness for C8: a concrete first call that answers (stored at
timestamp 100), followed by a second call at the same clock time 100 —
within the 3600-second TTL window, so the antecedent holds — which is
served from the cache: the kernel-evaluated conjuncts confirm the second
call returns identical message/citations/type and invokes neither
retrieval nor generation. -/
theorem chat_cached_idempotent_witness :
    (chat defaultSettings envAns (emptyCache 100 3600) ("What is CBCT?") ("r1") clk1).result.type
        = "answer" ∧
    (∃ ts, lookupEntry (hashQuery ("What is CBCT?"))
        (chat defaultSettings envAns (emptyCache 100 3600) ("What is CBCT?") ("r1") clk1).cache.cache
        = some ((chat defaultSettings envAns (emptyCache 100 3600) ("What is CBCT?") ("r1") clk1).result, ts) ∧
      (clk1.now - ts < (chat defaultSettings envAns (emptyCache 100 3600) ("What is CBCT?") ("r1") clk1).cache.ttl →
        (chat defaultSettings envEmpty (chat defaultSettings envAns (emptyCache 100 3600) ("What is CBCT?") ("r1") clk1).cache ("What is CBCT?") ("r2") clk1).result.message
            = (chat defaultSettings envAns (emptyCache 100 3600) ("What is CBCT?") ("r1") clk1).result.message ∧
        (chat defaultSettings envEmpty (chat defaultSettings envAns (emptyCache 100 3600) ("What is CBCT?") ("r1") clk1).cache ("What is CBCT?") ("r2") clk1).result.citations
            = (chat defaultSettings envAns (emptyCache 100 3600) ("What is CBCT?") ("r1") clk1).result.citations ∧
        (chat defaultSettings envEmpty (chat defaultSettings envAns (emptyCache 100 3600) ("What is CBCT?") ("r1") clk1).cache ("What is CBCT?") ("r2") clk1).result.type
            = (chat defaultSettings envAns (emptyCache 100 3600) ("What is CBCT?") ("r1") clk1).result.type ∧
        (chat defaultSettings envEmpty (chat defaultSettings envAns (emptyCache 100 3600) ("What is CBCT?") ("r1") clk1).cache ("What is CBCT?") ("r2") clk1).invokedRetrieval = false ∧
        (chat defaultSettings envEmpty (chat defaultSettings envAns (emptyCache 100 3600) ("What is CBCT?") ("r1") clk1).cache ("What is CBCT?") ("r2") clk1).invokedGeneration = false)) ∧
    lookupEntry (hashQuery ("What is CBCT?"))
        (chat defaultSettings envAns (emptyCache 100 3600) ("What is CBCT?") ("r1") clk1).cache.cache
        = some ((chat defaultSettings envAns (emptyCache 100 3600) ("What is CBCT?") ("r1") clk1).result, 100) ∧
    clk1.now - 100 < (chat defaultSettings envAns (emptyCache 100 3600) ("What is CBCT?") ("r1") clk1).cache.ttl ∧
    (chat defaultSettings envEmpty (chat defaultSettings envAns (emptyCache 100 3600) ("What is CBCT?") ("r1") clk1).cache ("What is CBCT?") ("r2") clk1).invokedRetrieval = false ∧
    (chat defaultSettings envEmpty (chat defaultSettings envAns (emptyCache 100 3600) ("What is CBCT?") ("r1") clk1).cache ("What is CBCT?") ("r2") clk1).invokedGeneration = false ∧
    (chat defaultSettings envEmpty (chat defaultSettings envAns (emptyCache 100 3600) ("What is CBCT?") ("r1") clk1).cache ("What is CBCT?") ("r2") clk1).result.message
        = (chat defaultSettings envAns (emptyCache 100 3600) ("What is CBCT?") ("r1") clk1).result.message ∧
    (chat defaultSettings envEmpty (chat defaultSettings envAns (emptyCache 100 3600) ("What is CBCT?") ("r1") clk1).cache ("What is CBCT?") ("r2") clk1).result.citations
        = (chat defaultSettings envAns (emptyCache 100 3600) ("What is CBCT?") ("r1") clk1).result.citations ∧
    (chat defaultSettings envEmpty (chat defaultSettings envAns (emptyCache 100 3600) ("What is CBCT?") ("r1") clk1).cache ("What is CBCT?") ("r2") clk1).result.type
        = (chat defaultSettings envAns (emptyCache 100 3600) ("What is CBCT?") ("r1") clk1).result.type :=
  ⟨by decide,
   chat_cached_idempotent defaultSettings envAns envEmpty (emptyCache 100 3600)
     ("What is CBCT?") ("r1") ("r2") clk1 clk1 (by decide),
   by decide, by decide, by decide, by decide, by decide, by decide, by decide⟩

/-- Claim C9 (amended): assuming every cached entry is answer-typed, the
cache only ever holds answer-typed results after `chat` (`set` is invoked
only on the validated-answer path), and on every handoff-returning path
the cache entries are unchanged except that the initial lookup may have
lazily removed an expired entry under the queried key. -/
theorem cache_answers_only (st : Settings) (env : ChatEnv) (c : ResponseCache)
    (q rid : String) (clk : Clock)
    (hinv : ∀ e ∈ c.cache, e.2.1.type = "answer") :
    (∀ e ∈ (chat st env c q rid clk).cache.cache, e.2.1.type = "answer") ∧
    ((chat st env c q rid clk).result.type = "handoff" →
       (chat st env c q rid clk).cache.cache = c.cache ∨
       (chat st env c q rid clk).cache.cache = eraseKey (hashQuery q) c.cache) := by
  rcases hl : lookupEntry (hashQuery q) c.cache with _ | ⟨r, ts⟩
  · rw [chat_miss st env c q rid clk hl]
    obtain ⟨s1, s2, _⟩ := chatPipeline_spec st env _ q rid clk _ rfl
    constructor
    · by_cases h : (chatPipeline st env { c with misses := c.misses + 1 } q rid clk).result.type
          = "answer"
      · rw [(s1 h).2]
        intro e he
        rcases mem_set_cache _ _ _ _ _ he with heq | hold
        · subst heq
          exact h
        · exact hinv e hold
      · rw [s2 h]
        exact hinv
    · intro h
      have hne : (chatPipeline st env { c with misses := c.misses + 1 } q rid clk).result.type
          ≠ "answer" := by
        rw [h]; decide
      rw [s2 hne]
      exact Or.inl rfl
  · by_cases hf : clk.now - ts < c.ttl
    · rw [chat_hit st env c q rid clk r ts hl hf]
      have hr := hinv (hashQuery q, r, ts) (lookupEntry_mem _ _ _ hl)
      constructor
      · intro e he
        rcases mem_assocSet _ _ _ _ he with heq | hold
        · subst heq
          exact hr
        · exact hinv e hold
      · intro h
        have h2 : ("answer" : String) = "handoff" := hr.symm.trans h
        exact absurd h2 (by decide)
    · rw [chat_expired st env c q rid clk r ts hl hf]
      obtain ⟨s1, s2, _⟩ := chatPipeline_spec st env _ q rid clk _ rfl
      constructor
      · by_cases h : (chatPipeline st env
            { c with misses := c.misses + 1, cache := eraseKey (hashQuery q) c.cache }
            q rid clk).result.type = "answer"
        · rw [(s1 h).2]
          intro e he
          rcases mem_set_cache _ _ _ _ _ he with heq | hold
          · subst heq
            exact h
          · exact hinv e (mem_eraseKey _ _ _ hold)
        · rw [s2 h]
          exact fun e he => hinv e (mem_eraseKey _ _ _ he)
      · intro h
        have hne : (chatPipeline st env
            { c with misses := c.misses + 1, cache := eraseKey (hashQuery q) c.cache }
            q rid clk).result.type ≠ "answer" := by
          rw [h]; decide
        rw [s2 hne]
        exact Or.inr rfl

/-- Counterexample to C9 as stated: a handoff path on which the cache
state changes — the initial lookup removes the expired entry before the
gate hands the query off, so the cache is not left unchanged. -/
theorem cache_handoff_path_counterexample :
    (chat defaultSettings envEmpty cOld ("old query") ("r2") clkLate).result.type = "handoff" ∧
    (chat defaultSettings envEmpty cOld ("old query") ("r2") clkLate).cache.cache ≠ cOld.cache := by
  refine ⟨by decide, by decide⟩

/-- Witness for the amended C9 on the concrete expired-entry scenario. -/
theorem cache_answers_only_witness :
    (∀ e ∈ cOld.cache, e.2.1.type = "answer") ∧
    ((∀ e ∈ (chat defaultSettings envEmpty cOld ("old query") ("r2") clkLate).cache.cache,
        e.2.1.type = "answer") ∧
    ((chat defaultSettings envEmpty cOld ("old query") ("r2") clkLate).result.type = "handoff" →
       (chat defaultSettings envEmpty cOld ("old query") ("r2") clkLate).cache.cache = cOld.cache ∨
       (chat defaultSettings envEmpty cOld ("old query") ("r2") clkLate).cache.cache
           = eraseKey (hashQuery ("old query")) cOld.cache)) :=
  ⟨by decide,
   cache_answers_only defaultSettings envEmpty cOld ("old query") ("r2") clkLate (by decide)⟩
